import Mathlib

/-!
Verification development for the CISA_Dash data-acquisition pipeline
(`data_fetcher.py`).  The Python source is shallowly embedded below:

* JSON documents are modelled by the inductive `JVal`; Python's subscript,
  `in`, `len` and `float` operations on parsed JSON are modelled with their
  exception behaviour made explicit through `Except PyErr`.
* The two score-enrichment clients `fetch_epss_score` and
  `fetch_cvss_base_score` are translated statement by statement; the
  severity client additionally reports the total `time.sleep` duration it
  performed, so that rate-limit pausing is part of the model.
* The reconciliation engine (`process_cisa_data`, `get_latest_data`),
  the cache store (`load_cached_data`, the archival and atomic-write parts
  of `save_cached_data`) are embedded further below, each with its own
  faithful state model.

Floating-point numbers of the source are abstracted by rationals; no claim
depends on rounding.
-/

set_option autoImplicit false

/-- Python exception classes that the embedded code can raise. -/
inductive PyErr where
  | keyError
  | typeError
  | valueError
  | indexError
  | jsonDecodeError
  | osError
  | attributeError
deriving DecidableEq, Repr

/-- Parsed JSON values (`json.load` / `response.json()` results). -/
inductive JVal where
  | jnull
  | jbool (b : Bool)
  | jnum (q : ℚ)
  | jstr (s : String)
  | jarr (xs : List JVal)
  | jobj (fields : List (String × JVal))

/-- Python `v == "k"` for a JSON value and a string literal: true exactly
when `v` is that string (`==` across types is `False`, never an error). -/
def eqJStr : JVal → String → Bool
  | .jstr s, k => s == k
  | _, _ => false

/-- Python `v[k]` with a string key: dict lookup raises `KeyError` when the
key is missing; subscripting any non-dict with a string raises `TypeError`. -/
def JVal.subscript : JVal → String → Except PyErr JVal
  | .jobj fields, k =>
    match fields.lookup k with
    | some v => .ok v
    | none => .error .keyError
  | _, _ => .error .typeError

/-- Python `v[i]` with a non-negative integer index. -/
def JVal.index : JVal → Nat → Except PyErr JVal
  | .jarr xs, i =>
    match xs.get? i with
    | some v => .ok v
    | none => .error .indexError
  | .jstr s, i =>
    match s.toList.get? i with
    | some c => .ok (.jstr (String.mk [c]))
    | none => .error .indexError
  | .jobj _, _ => .error .keyError
  | _, _ => .error .typeError

/-- Substring test, used for Python's `needle in haystack` on strings. -/
def strContainsSub (hay needle : String) : Bool :=
  (List.range (hay.length + 1)).any (fun i => needle.isPrefixOf (hay.drop i))

/-- Python `k in v`: key membership for dicts, element membership for lists,
substring test for strings; `TypeError` for non-containers. -/
def JVal.pyContains : JVal → String → Except PyErr Bool
  | .jobj fields, k => .ok ((fields.map Prod.fst).contains k)
  | .jarr xs, k => .ok (xs.any (fun x => eqJStr x k))
  | .jstr s, k => .ok (strContainsSub s k)
  | _, _ => .error .typeError

/-- Python `len(v)`. -/
def JVal.pyLen : JVal → Except PyErr Nat
  | .jarr xs => .ok xs.length
  | .jstr s => .ok s.length
  | .jobj fields => .ok fields.length
  | _ => .error .typeError

/-- Python `v > 0` as used in `data['total'] > 0`: numbers and booleans
compare with integers, every other type raises `TypeError`. -/
def JVal.pyGtZero : JVal → Except PyErr Bool
  | .jnum q => .ok (decide (0 < q))
  | .jbool b => .ok b
  | _ => .error .typeError

/-- Value of a digit string in base 10 (non-digits are rejected by callers). -/
def digitsToNat (cs : List Char) : Nat :=
  cs.foldl (fun a c => a * 10 + (c.toNat - 48)) 0

/-- Plain decimal literals accepted by Python's `float` constructor:
optional sign, digits, optional fraction.  (Exponent forms and the
special words are not modelled; the parser under-approximates `float`,
which only narrows which concrete inputs the theorems below exercise.) -/
def pyParseFloat (s : String) : Option ℚ :=
  let cs := s.toList
  let sgn : ℚ × List Char :=
    match cs with
    | c :: rest =>
      if c = '-' then (-1, rest) else if c = '+' then (1, rest) else (1, cs)
    | [] => (1, cs)
  let ip := sgn.2.takeWhile Char.isDigit
  let rest := sgn.2.dropWhile Char.isDigit
  match rest with
  | [] => if ip = [] then none else some (sgn.1 * digitsToNat ip)
  | c :: fp =>
    if c = '.' ∧ fp.all Char.isDigit = true ∧ (ip ≠ [] ∨ fp ≠ []) then
      some (sgn.1 * ((digitsToNat ip : ℚ) + (digitsToNat fp : ℚ) / (10 : ℚ) ^ fp.length))
    else none

/-- Python `float(v)`. -/
def JVal.pyFloat : JVal → Except PyErr ℚ
  | .jnum q => .ok q
  | .jbool b => .ok (if b then 1 else 0)
  | .jstr s =>
    match pyParseFloat s with
    | some q => .ok q
    | none => .error .valueError
  | .jnull => .error .typeError
  | .jarr _ => .error .typeError
  | .jobj _ => .error .typeError

/-- An HTTP response as `requests` presents it: a status code plus a body;
`body = none` stands for bytes that are not valid JSON, on which
`response.json()` raises. -/
structure HttpResp where
  status_code : Nat
  body : Option JVal

/-- `response.json()`. -/
def respJson (r : HttpResp) : Except PyErr JVal :=
  match r.body with
  | some v => .ok v
  | none => .error .jsonDecodeError

/-- NVD recommended sleep time (module constant `NVD_SLEEPTIME = 6`). -/
def NVD_SLEEPTIME : Nat := 6

/-- Embedding of `fetch_epss_score` (data_fetcher.py lines 63-71), as a
function of the HTTP response received for the identifier.  Uncaught
Python exceptions appear as `.error`; `.ok none` is the `return None`
path; `.ok (some v)` is the `return float(...)` path. -/
def fetch_epss_score (resp : HttpResp) : Except PyErr (Option JVal) :=
  if resp.status_code = 200 then
    match respJson resp with
    | .error e => .error e
    | .ok data =>
      match data.subscript "status" with
      | .error e => .error e
      | .ok st =>
        if eqJStr st "OK" then
          match data.subscript "total" with
          | .error e => .error e
          | .ok tot =>
            match tot.pyGtZero with
            | .error e => .error e
            | .ok true =>
              match data.subscript "data" with
              | .error e => .error e
              | .ok d =>
                match d.index 0 with
                | .error e => .error e
                | .ok d0 =>
                  match d0.subscript "epss" with
                  | .error e => .error e
                  | .ok v =>
                    match v.pyFloat with
                    | .error e => .error e
                    | .ok q => .ok (some (.jnum q))
            | .ok false => .ok none
        else .ok none
  else .ok none

/-- The condition `'key' in cvss_metrics and len(cvss_metrics['key']) > 0`
of the schema chain in `fetch_cvss_base_score`. -/
def condFor (m : JVal) (k : String) : Except PyErr Bool :=
  match m.pyContains k with
  | .error e => .error e
  | .ok false => .ok false
  | .ok true =>
    match m.subscript k with
    | .error e => .error e
    | .ok a =>
      match a.pyLen with
      | .error e => .error e
      | .ok n => .ok (decide (0 < n))

/-- The extraction `cvss_metrics[k][0]['cvssData']['baseScore']`. -/
def extractFrom (m : JVal) (k : String) : Except PyErr (Option JVal) :=
  match m.subscript k with
  | .error e => .error e
  | .ok a =>
    match a.index 0 with
    | .error e => .error e
    | .ok a0 =>
      match a0.subscript "cvssData" with
      | .error e => .error e
      | .ok c0 =>
        match c0.subscript "baseScore" with
        | .error e => .error e
        | .ok bs => .ok (some bs)

/-- The `if / elif / elif` chain over the three CVSS schema versions
(data_fetcher.py lines 85-92); `.ok none` is falling through all three. -/
def schemaChain (m : JVal) : Except PyErr (Option JVal) :=
  match condFor m "cvssMetricV31" with
  | .error e => .error e
  | .ok true => extractFrom m "cvssMetricV31"
  | .ok false =>
    match condFor m "cvssMetricV30" with
    | .error e => .error e
    | .ok true => extractFrom m "cvssMetricV30"
    | .ok false =>
      match condFor m "cvssMetricV2" with
      | .error e => .error e
      | .ok true => extractFrom m "cvssMetricV2"
      | .ok false => .ok none

/-- Body of the `try` block: `data['vulnerabilities'][0]['cve']['metrics']`
followed by the schema chain. -/
def rawExtract (data : JVal) : Except PyErr (Option JVal) :=
  match data.subscript "vulnerabilities" with
  | .error e => .error e
  | .ok vulns =>
    match vulns.index 0 with
    | .error e => .error e
    | .ok v0 =>
      match v0.subscript "cve" with
      | .error e => .error e
      | .ok cve =>
        match cve.subscript "metrics" with
        | .error e => .error e
        | .ok m => schemaChain m

/-- The handler `except (KeyError, ValueError)`: those two exception
classes are recovered (execution continues after the `try`, eventually
returning `None`); every other exception propagates. -/
def recoverKV : Except PyErr (Option JVal) → Except PyErr (Option JVal)
  | .error .keyError => .ok none
  | .error .valueError => .ok none
  | x => x

/-- The `try ... except (KeyError, ValueError)` block. -/
def tryExtract (data : JVal) : Except PyErr (Option JVal) :=
  recoverKV (rawExtract data)

/-- The guard `'vulnerabilities' in data and len(data['vulnerabilities']) > 0`
(short-circuiting, each step able to raise). -/
def outerCond (data : JVal) : Except PyErr Bool :=
  match data.pyContains "vulnerabilities" with
  | .error e => .error e
  | .ok false => .ok false
  | .ok true =>
    match data.subscript "vulnerabilities" with
    | .error e => .error e
    | .ok v =>
      match v.pyLen with
      | .error e => .error e
      | .ok n => .ok (decide (0 < n))

/-- Continuation after the `try` block (the last statements of
`fetch_cvss_base_score`): an early `return` inside the `try` skips the
sleep, completion without a return reaches `time.sleep(NVD_SLEEPTIME)` and
then `return None`, an uncaught exception propagates without sleeping. -/
def afterTry : Except PyErr (Option JVal) → Except PyErr (Option JVal) × Nat
  | .error e => (.error e, 0)
  | .ok (some v) => (.ok (some v), 0)
  | .ok none => (.ok none, NVD_SLEEPTIME)

/-- Continuation after the guard of line 81: a passed guard runs the `try`
block, a failed guard takes the `else` (which prints and falls through to
the sleep), an exception propagates. -/
def afterOuter (data : JVal) : Except PyErr Bool → Except PyErr (Option JVal) × Nat
  | .error e => (.error e, 0)
  | .ok true => afterTry (tryExtract data)
  | .ok false => (.ok none, NVD_SLEEPTIME)

/-- Embedding of `fetch_cvss_base_score` (data_fetcher.py lines 73-100) as a
function of the HTTP response.  The first component is the call's outcome
(`.ok (some v)`: an early `return` from inside the schema chain with the raw
JSON value found under `baseScore`; `.ok none`: the final `return None`;
`.error`: an uncaught exception).  The second component is the total
duration the call spent in `time.sleep`. -/
def fetch_cvss_base_score (resp : HttpResp) : Except PyErr (Option JVal) × Nat :=
  if resp.status_code = 200 then
    match respJson resp with
    | .error e => (.error e, 0)
    | .ok data => afterOuter data (outerCond data)
  else (.ok none, NVD_SLEEPTIME)

/-- True when an `Except` result is the normal completion `ok`. -/
def exIsOk {α : Type} : Except PyErr α → Bool
  | .ok _ => true
  | .error _ => false

/-- The value a successful call handed back to pandas (`.error` never hands
back a value; it aborts the caller). -/
def exVal : Except PyErr (Option JVal) → Option JVal
  | .ok v => v
  | .error _ => none

/-- True exactly on the completion through the final `return None`
(no early return from the schema chain, no uncaught exception). -/
def exIsOkNone : Except PyErr (Option JVal) → Bool
  | .ok none => true
  | _ => false

/-- What the Python caller receives as a usable score: an early-returned
value that is not JSON `null` (a returned `None` is no score at all). -/
def usableScore : Except PyErr (Option JVal) → Bool
  | .ok (some .jnull) => false
  | .ok (some _) => true
  | _ => false

/-- `new_cves['cveID'].apply(f)`: pandas applies `f` to each element in
order and the first exception aborts the whole column. -/
def applyColumn (f : String → Except PyErr (Option JVal)) :
    List String → Except PyErr (List (Option JVal))
  | [] => .ok []
  | c :: cs =>
    match f c with
    | .error e => .error e
    | .ok v =>
      match applyColumn f cs with
      | .error e => .error e
      | .ok vs => .ok (v :: vs)

/-- `.fillna(0)` on a column: missing values (a Python `None` returned by a
fetch, or the JSON `null` an early return produced) become `0`. -/
def fillna0 (xs : List (Option JVal)) : List JVal :=
  xs.map fun x =>
    match x with
    | none => .jnum 0
    | some .jnull => .jnum 0
    | some v => v

/-- Embedding of the enrichment of the delta (data_fetcher.py lines 44-51):
the EPSS column is computed first, then the CVSS column, then both are
zero-filled; `fE`/`fC` give the outcome of one fetch per identifier. -/
def enrich_new_cves (fE fC : String → Except PyErr (Option JVal))
    (cves : List String) : Except PyErr (List (JVal × JVal)) :=
  match applyColumn fE cves with
  | .error e => .error e
  | .ok es =>
    match applyColumn fC cves with
    | .error e => .error e
    | .ok cs => .ok ((fillna0 es).zip (fillna0 cs))

/-!
Reconciliation engine and cache store.  In this part of the embedding the
two fetches are abstracted by oracles `String → Option ℚ` giving the value
each completed fetch would hand back (`none` = Python `None`); the
exception behaviour of the fetches themselves is handled by the model
above.

Date values: the code only ever holds a date as a `pandas.Timestamp` or as
the canonical ISO-8601 string denoting it, and `pd.to_datetime` /
`Timestamp.isoformat` translate between the two representations of one
instant.  `DVal` therefore carries the denoted instant (a number) plus a
tag for which representation currently holds it.
-/

/-- A date value: a `pandas.Timestamp` (`dtv`) or the ISO-8601 string
denoting the same instant (`strv`). -/
inductive DVal where
  | dtv (t : Nat)
  | strv (t : Nat)
deriving DecidableEq, Repr

/-- `pd.to_datetime` on one value: parses a string, leaves a timestamp. -/
def pd_to_datetime : DVal → DVal
  | .dtv t => .dtv t
  | .strv t => .dtv t

/-- The lambda of `save_cached_data` line 137:
`x.isoformat() if isinstance(x, pd.Timestamp) else x`. -/
def isoIfTimestamp : DVal → DVal
  | .dtv t => .strv t
  | .strv t => .strv t

/-- True when the value is held as a `pandas.Timestamp`. -/
def DVal.isDt : DVal → Bool
  | .dtv _ => true
  | .strv _ => false

/-- True when the value is held as an ISO-8601 string. -/
def DVal.isStr : DVal → Bool
  | .dtv _ => false
  | .strv _ => true

/-- One vulnerability entry of the CISA feed (the columns of the frame
built at data_fetcher.py line 34). -/
structure FeedRec where
  cveID : String
  vendorProject : String
  product : String
  vulnerabilityName : String
  dateAdded : DVal
  shortDescription : String
  requiredAction : String
  dueDate : DVal
  knownRansomwareCampaignUse : String
  notes : String
  cwes : List String
deriving DecidableEq, Repr

/-- A row of the processed frame: the feed columns plus the two score
columns added by enrichment (`none` = NaN / JSON null). -/
structure Row where
  vuln : FeedRec
  EPSS : Option ℚ
  CVSS3 : Option ℚ
deriving DecidableEq, Repr

/-- Identifier of a processed row. -/
def Row.cveID (r : Row) : String := r.vuln.cveID

/-- The document served by the CISA feed endpoint. -/
structure Feed where
  catalogVersion : String
  vulnerabilities : List FeedRec
deriving DecidableEq, Repr

/-- The persisted cache document: the fetched feed document with the
`processed_data` field added by `save_cached_data` (line 142). -/
structure CacheDoc where
  catalogVersion : String
  vulnerabilities : List FeedRec
  processed : List Row
deriving DecidableEq, Repr

/-- Lines 35-36: `df['dateAdded'] = pd.to_datetime(df['dateAdded'])` etc. -/
def toDatetimeFeedRec (r : FeedRec) : FeedRec :=
  { r with dateAdded := pd_to_datetime r.dateAdded, dueDate := pd_to_datetime r.dueDate }

/-- The same per-row conversion applied to a processed row (load line 110,
and `get_latest_data` lines 189-190). -/
def toDatetimeRow (r : Row) : Row :=
  { r with vuln := toDatetimeFeedRec r.vuln }

/-- The frame `df` built from the feed (lines 34-36). -/
def dfOf (feed : Feed) : List FeedRec :=
  feed.vulnerabilities.map toDatetimeFeedRec

/-- Line 38: `set(cached_data['cveID']) if cached_data is not None else set()`
(kept as the list of identifiers; only membership is ever used). -/
def cachedCves (cached_data : Option (List Row)) : List String :=
  (cached_data.getD []).map Row.cveID

/-- Line 41: `df[~df['cveID'].isin(cached_cves)]`. -/
def newCves (feed : Feed) (cached_data : Option (List Row)) : List FeedRec :=
  (dfOf feed).filter (fun r => !((cachedCves cached_data).contains r.cveID))

/-- Lines 46-51 for one delta row: the two fetches are performed and the
`None` outcomes are zero-filled. -/
def enrichRow (fE fC : String → Option ℚ) (r : FeedRec) : Row :=
  ⟨r, some ((fE r.cveID).getD 0), some ((fC r.cveID).getD 0)⟩

/-- Embedding of `process_cisa_data` (lines 31-61).  Result: the combined
frame plus the identifier lists the EPSS fetch and the CVSS fetch were
invoked on, in invocation order.  `none` models the crash that really
occurs on an empty feed (`df['dateAdded']` raises on an empty frame);
the `combined_data = cached_data` branch needs no `none` case beyond it
because with a non-empty feed and no cache the delta is never empty. -/
def process_cisa_data (fE fC : String → Option ℚ) (feed : Feed)
    (cached_data : Option (List Row)) :
    Option (List Row × List String × List String) :=
  if feed.vulnerabilities = [] then none
  else if (newCves feed cached_data).isEmpty then
    some (cached_data.getD [], [], [])
  else
    some ((cached_data.getD []) ++ (newCves feed cached_data).map (enrichRow fE fC),
      (newCves feed cached_data).map FeedRec.cveID,
      (newCves feed cached_data).map FeedRec.cveID)

/-- Lines 136-137 of `save_cached_data`: every column whose dtype is
datetime (i.e. all of its values are Timestamps) is rewritten in place to
ISO-8601 strings.  The function returns the frame as mutated, because the
caller's object is the one written through (column assignment mutates the
frame `get_latest_data` passed in and later returns). -/
def save_mutate_dateAdded (rows : List Row) : List Row :=
  if rows.all (fun r => r.vuln.dateAdded.isDt) then
    rows.map (fun r => { r with vuln := { r.vuln with dateAdded := isoIfTimestamp r.vuln.dateAdded } })
  else rows

/-- Second iteration of the same loop, for the `dueDate` column. -/
def save_mutate (rows : List Row) : List Row :=
  if (save_mutate_dateAdded rows).all (fun r => r.vuln.dueDate.isDt) then
    (save_mutate_dateAdded rows).map
      (fun r => { r with vuln := { r.vuln with dueDate := isoIfTimestamp r.vuln.dueDate } })
  else save_mutate_dateAdded rows

/-- Load of a well-formed cache document (lines 106-112): the stored
columnar data is rebuilt into a frame with the two date columns parsed
back to Timestamps. -/
def loadRows (doc : CacheDoc) : List Row :=
  doc.processed.map toDatetimeRow

/-- The guard of line 182:
`cached_data is None or cached_catalog_version != cisa_data['catalogVersion']`. -/
def staleCache (feed : Feed) (cache : Option CacheDoc) : Bool :=
  (cache.map loadRows).isNone || !((cache.map CacheDoc.catalogVersion) == some feed.catalogVersion)

/-- Observable outcome of one `get_latest_data` run. -/
structure RunResult where
  returned : List Row
  cacheAfter : Option CacheDoc
  epssCalls : List String
  cvssCalls : List String
deriving DecidableEq, Repr

/-- Embedding of `get_latest_data` (lines 177-192) for one run against a
given feed document and a given (well-formed or absent) cache file.
On the update path the snapshot written through `save_cached_data` is the
same mutated object the function returns (dates turned into ISO strings);
on the no-op path the cached frame is returned with its date columns
passed through `pd.to_datetime` and the cache file is left untouched.
Line 140's NaN-to-None normalization rebinds only save's local name and
affects only the serialized document; a missing score is `Option.none` in
both the returned frame and the stored document here, which identifies
pandas NaN with JSON null as this code does on load.
`none` models the crash on an empty feed (see `process_cisa_data`). -/
def get_latest_data (fE fC : String → Option ℚ) (feed : Feed)
    (cache : Option CacheDoc) : Option RunResult :=
  if staleCache feed cache then
    match process_cisa_data fE fC feed (cache.map loadRows) with
    | none => none
    | some (processed, le, lc) =>
      some ⟨save_mutate processed,
        some ⟨feed.catalogVersion, feed.vulnerabilities, save_mutate processed⟩, le, lc⟩
  else
    some ⟨((cache.map loadRows).getD []).map toDatetimeRow, cache, [], []⟩

/-- The set of feed records whose identifier is not already present in the
cached snapshot, stated in the spec's own terms on the raw feed list. -/
def deltaOf (feed : Feed) (cached_data : Option (List Row)) : List FeedRec :=
  feed.vulnerabilities.filter
    (fun v => !(((cached_data.getD []).map Row.cveID).contains v.cveID))

/-!
Cache store: load path (error handling, claim C7).
-/

/-- The bytes found in the persisted cache file. -/
inductive RawFile where
  | unreadable
  | invalid
  | jv (v : JVal)

/-- A file-system side effect performed by the cache store. -/
inductive FsEffect where
  | rename (src dst : String)
deriving DecidableEq, Repr

/-- Module constant `CACHE_FILE`. -/
def CACHE_FILE : String := "data_cache.json"

/-- Module constant `LEGACY_DIR`. -/
def LEGACY_DIR : String := "Legacy"

/-- Python `d.items()` as used at line 110: raises `AttributeError` unless
the value is a dict. -/
def requireItems : JVal → Except PyErr (List (String × JVal))
  | .jobj fields => .ok fields
  | _ => .error .attributeError

/-- Python `data.get('catalogVersion', None)`; by the time it runs,
`data` is known to be a dict (its subscripts succeeded). -/
def pyGet : JVal → String → Option JVal
  | .jobj fields, k => fields.lookup k
  | _, _ => none

/-- The body of the `try` block after `json.load` succeeded (lines
108-112): for `dateAdded` then `dueDate`, subscript `processed_data`,
subscript the column, and iterate `.items()` over it.  The per-value
`pd.to_datetime` is value-level (it does not change the failure shape
for the contents this development evaluates) so the reconstructed pair
keeps the stored column map. -/
def load_reconstruct (data : JVal) : Except PyErr (Option (JVal × Option JVal)) :=
  match data.subscript "processed_data" with
  | .error e => .error e
  | .ok pdv =>
    match pdv.subscript "dateAdded" with
    | .error e => .error e
    | .ok da =>
      match requireItems da with
      | .error e => .error e
      | .ok _ =>
        match pdv.subscript "dueDate" with
        | .error e => .error e
        | .ok du =>
          match requireItems du with
          | .error e => .error e
          | .ok _ => .ok (some (pdv, pyGet data "catalogVersion"))

/-- Embedding of `load_cached_data` (lines 102-118) at the file level.
Only `json.JSONDecodeError` is caught (line 113); the caught case renames
the file aside with the `.bak` suffix and reports "no cache".  Every other
failure — an unreadable file, or parseable JSON whose shape breaks the
reconstruction — propagates as an exception and performs no rename. -/
def load_cached_data : Option RawFile →
    Except PyErr (Option (JVal × Option JVal)) × List FsEffect
  | none => (.ok none, [])
  | some .unreadable => (.error .osError, [])
  | some .invalid => (.ok none, [.rename CACHE_FILE (CACHE_FILE ++ ".bak")])
  | some (.jv data) => (load_reconstruct data, [])

/-!
Cache store: save path.  Two separate aspects are modelled.

First the archival step and the document written (claim C1): the file
system is an association list from path to document content, a document
abstracted to its catalog version plus its remaining payload (`json.load`
followed by `json.dump` preserves the document, so the archived copy is
the old document itself).  `save_cached_data` is rendered as the sequence
of file writes it performs; the temporary-file-then-move pair that places
the new cache content is collapsed into the single write it amounts to.
-/

/-- A persisted cache document, abstracted to the catalog version it
carries plus its remaining (opaque) payload. -/
structure ArchDoc where
  catalogVersion : String
  payload : String
deriving DecidableEq, Repr

/-- One file write. -/
inductive FsWrite where
  | write (path : String) (content : ArchDoc)
deriving DecidableEq, Repr

/-- Python `catalog_version.replace('.', '')`: every dot removed (for the
one-character pattern this is exactly a character filter). -/
def pyReplaceDot (v : String) : String :=
  String.mk (v.toList.filter (fun c => !(c == '.')))

/-- Line 128: `os.path.join(LEGACY_DIR, f"KEV_{catalog_version.replace('.', '')}.json")`. -/
def legacy_file (catalog_version : String) : String :=
  LEGACY_DIR ++ "/KEV_" ++ pyReplaceDot catalog_version ++ ".json"

/-- The writes `save_cached_data` performs (lines 123-149), in order: when
a cache file exists its current document is written into the archive
directory under a name derived from the catalog version of the *incoming*
document `cisa` (line 127 reads `cisa_data['catalogVersion']`), then the
incoming document is placed at the canonical path. -/
def save_cached_writes (cisa : ArchDoc) (fs : List (String × ArchDoc)) : List FsWrite :=
  match fs.lookup CACHE_FILE with
  | some old => [.write (legacy_file cisa.catalogVersion) old, .write CACHE_FILE cisa]
  | none => [.write CACHE_FILE cisa]

/-- Apply one write to the file system. -/
def fsApply (fs : List (String × ArchDoc)) : FsWrite → List (String × ArchDoc)
  | .write p c => (p, c) :: fs.filter (fun e => e.1 != p)

/-- Apply a sequence of writes. -/
def fsRun (fs : List (String × ArchDoc)) (ws : List FsWrite) : List (String × ArchDoc) :=
  ws.foldl fsApply fs

/-!
Second, the claimed crash-safety of the write itself (claim C2).
`save_cached_data` builds the new content in a `tempfile.NamedTemporaryFile`
created with no `dir` argument — i.e. in the interpreter's default
temporary directory, not next to the cache file — and then calls
`shutil.move(tmp, CACHE_FILE)`.  `shutil.move` tries `os.rename`, which is
atomic but only possible inside one file system; across file systems it
falls back to copying into the destination (open + truncate, write) and
unlinking the source.  `save_crash_states` lists the contents of the
canonical cache path at every interruption point between the completion
of the temporary-file write and the completion of the move (`none` =
no file at the canonical path; `some s` = a file with bytes `s`).
-/

/-- Default directory of `tempfile.NamedTemporaryFile` when no `dir`
argument is given (`tempfile.gettempdir()`; `/tmp` on POSIX). -/
def tempfile_dir : String := "/tmp"

/-- `os.path.dirname`: the part before the last slash, empty for a bare
file name (adequate for the relative and absolute paths considered here). -/
def dirname (p : String) : String :=
  String.mk (((p.toList.reverse.dropWhile (fun c => !(c == '/'))).drop 1).reverse)

/-- Contents of the canonical cache path at each interruption point of
`shutil.move(tmp, CACHE_FILE)` (lines 144-149), given whether the
temporary directory and the cache path are on the same file system, the
prior canonical content and the new content.  Same file system: the one
point before the atomic `os.rename` lands, where the old content is still
intact.  Different file systems: the copy fallback first truncates the
destination (empty file), then fills it, then unlinks the source. -/
def save_crash_states (sameDevice : Bool) (old : Option String) (newContent : String) :
    List (Option String) :=
  if sameDevice then [old]
  else [old, some "", some newContent]


/-!
Concrete inputs used by the witnesses and counterexamples below.
-/

/-- A feed record with the given identifier and date instants (dates come
off the wire as ISO strings). -/
def mkRec (id : String) (t1 t2 : Nat) : FeedRec :=
  ⟨id, "vendor", "product", "name", .strv t1, "desc", "action", .strv t2, "Unknown", "", ["CWE-79"]⟩

/-- First-run feed record. -/
def recA : FeedRec := mkRec "CVE-2024-0001" 10 20

/-- The same record as the upstream feed later serves it, with a field
changed upstream. -/
def recA2 : FeedRec := { mkRec "CVE-2024-0001" 10 20 with shortDescription := "updated desc" }

/-- A record added by the second feed revision. -/
def recB : FeedRec := mkRec "CVE-2024-0002" 30 40

/-- Feed revision "2024.01.01". -/
def feed1 : Feed := ⟨"2024.01.01", [recA]⟩

/-- Feed revision "2024.01.02": one record changed, one added. -/
def feed2 : Feed := ⟨"2024.01.02", [recA2, recB]⟩

/-- Likelihood oracle used in witnesses. -/
def oracleE : String → Option ℚ := fun c =>
  if c = "CVE-2024-0002" then some (97/100) else none

/-- Severity oracle used in witnesses (every fetch came back `None`). -/
def oracleC : String → Option ℚ := fun _ => none

/-- Outcome of the first concrete run (update path from an empty cache). -/
def R1 : RunResult :=
  (get_latest_data oracleE oracleC feed1 none).getD ⟨[], none, [], []⟩

/-- The cache document the first concrete run persisted. -/
def D1 : CacheDoc := R1.cacheAfter.getD ⟨"", [], []⟩

/-- Outcome of running revision "2024.01.02" against the cache of `D1`. -/
def RES2 : List Row × List String × List String :=
  (process_cisa_data oracleE oracleC feed2 (some (loadRows D1))).getD ([], [], [])

/-- Outcome of running revision "2024.01.01" again over the cache the first
run persisted (the no-op path). -/
def R2 : RunResult :=
  (get_latest_data oracleE oracleC feed1 R1.cacheAfter).getD ⟨[], none, [], []⟩

/-- A well-formed likelihood-service body. -/
def epssOkBody : JVal :=
  .jobj [("status", .jstr "OK"), ("total", .jnum 1),
    ("data", .jarr [.jobj [("epss", .jnum (97/100))]])]

/-- A 200 likelihood-service body of unrecognized shape (none of the
expected keys). -/
def epssBadBody : JVal := .jobj []

/-- A severity-service body whose metrics dict carries no recognized
score schema. -/
def cvssNoSchemaBody : JVal :=
  .jobj [("vulnerabilities", .jarr [.jobj [("cve",
    .jobj [("metrics", .jobj [("otherMetric", .jarr [])])])]])]

/-- Severity-service metrics exercising the fallback: the newest schema is
present but empty, the middle one has the score, the oldest is nonempty. -/
def fallbackMetrics : List (String × JVal) :=
  [("cvssMetricV31", .jarr []),
   ("cvssMetricV30", .jarr [.jobj [("cvssData", .jobj [("baseScore", .jnum (54/10))])]]),
   ("cvssMetricV2", .jarr [.jobj [("cvssData", .jobj [("baseScore", .jnum (21/10))])]])]

/-- A full severity-service body around a metrics dict. -/
def cvssBodyOf (m : List (String × JVal)) : JVal :=
  .jobj [("vulnerabilities", .jarr [.jobj [("cve", .jobj [("metrics", .jobj m)])]])]

/-- A severity-service body whose first present schema carries a JSON
`null` base score. -/
def cvssNullResp : HttpResp :=
  ⟨200, some (cvssBodyOf [("cvssMetricV31",
    .jarr [.jobj [("cvssData", .jobj [("baseScore", .jnull)])]])])⟩

/-- Per-identifier likelihood responses for the abort counterexample: the
first identifier receives a 200 response of unrecognized shape. -/
def epssRespCex : String → HttpResp := fun c =>
  if c = "CVE-2024-0001" then ⟨200, some epssBadBody⟩ else ⟨200, some epssOkBody⟩

/-- Per-identifier severity responses: always the no-recognized-schema body. -/
def cvssRespNoSchema : String → HttpResp := fun _ => ⟨200, some cvssNoSchemaBody⟩

/-- Likelihood outcomes used by the witness of the amended C3. -/
def fE0 : String → Except PyErr (Option JVal) := fun _ =>
  fetch_epss_score ⟨200, some epssOkBody⟩

/-- Severity outcomes used by the witness of the amended C3. -/
def fC0 : String → Except PyErr (Option JVal) := fun c =>
  (fetch_cvss_base_score (cvssRespNoSchema c)).1

/-- The preference order of the severity standard versions, newest first,
as the spec states it. -/
def preferredSchemas : List String :=
  ["cvssMetricV31", "cvssMetricV30", "cvssMetricV2"]

/-- Spec-side reading of "present with a non-empty entry": the metrics
dict holds the schema key with a non-empty list. -/
def schemaPresent (m : List (String × JVal)) (k : String) : Bool :=
  match m.lookup k with
  | some (.jarr (_ :: _)) => true
  | _ => false

/-- Spec-side reading of the selection rule: the first schema of the
preference order that is present with a non-empty entry list. -/
def specFirstSchema (m : List (String × JVal)) : Option String :=
  preferredSchemas.find? (schemaPresent m)

/-- The pre-run cache document of the archival counterexample. -/
def oldDoc : ArchDoc := ⟨"2024.01.01", "snapshot payload 2024.01.01"⟩

/-- The incoming document of the archival counterexample. -/
def newDoc : ArchDoc := ⟨"2024.01.02", "snapshot payload 2024.01.02"⟩

/-- File system before the archival counterexample's run. -/
def fs0 : List (String × ArchDoc) := [(CACHE_FILE, oldDoc)]

/-!
Helper lemmas shared by the claim theorems.
-/

/-- Filtering the image of a map is mapping the filtered preimage. -/
theorem filter_of_map {α β : Type} (f : α → β) (p : β → Bool) (l : List α) :
    (l.map f).filter p = (l.filter (fun a => p (f a))).map f := by
  induction l with
  | nil => rfl
  | cons a t ih =>
    simp only [List.map_cons, List.filter_cons]
    by_cases h : p (f a) = true
    · simp [h, ih]
    · simp [h, ih]

/-- An archive file name is never the canonical cache path (its name is
strictly longer whatever the version string). -/
theorem legacy_file_ne_cache (v : String) : legacy_file v ≠ CACHE_FILE := by
  intro h
  have hl : (legacy_file v).length = CACHE_FILE.length := congrArg String.length h
  rw [legacy_file, LEGACY_DIR, String.length_append, String.length_append,
    String.length_append] at hl
  have h1 : ("Legacy" : String).length = 6 := rfl
  have h2 : ("/KEV_" : String).length = 5 := rfl
  have h3 : (".json" : String).length = 5 := rfl
  have h4 : CACHE_FILE.length = 15 := rfl
  omega

/-- Removing entries under a different path does not change a lookup. -/
theorem lookup_filter_ne {q p : String} (fs : List (String × ArchDoc)) (h : q ≠ p) :
    (fs.filter (fun e => e.1 != p)).lookup q = fs.lookup q := by
  induction fs with
  | nil => rfl
  | cons a t ih =>
    by_cases ha : a.1 = p
    · have : (a.1 != p) = false := by simp [ha]
      have hq : (q == a.1) = false := by simp [ha, h]
      simp [List.filter_cons, this, List.lookup, hq, ih]
    · have : (a.1 != p) = true := by simp [ha]
      simp only [List.filter_cons, this, if_true]
      by_cases hq : q = a.1
      · simp [List.lookup, hq]
      · have hq' : (q == a.1) = false := by simp [hq]
        simp [List.lookup, hq', ih]

/-- C1 (counterexample): after a run that advances the catalog version from
"2024.01.01" to "2024.01.02" over an existing cache, the archive holds no
entry named from the prior snapshot's own version "2024.01.01"; the prior
content sits instead under the name derived from the new version
"2024.01.02".  This refutes the claim that the archived entry is named
from the version it represents. -/
theorem archive_keyed_by_old_version_cex :
    (fsRun fs0 (save_cached_writes newDoc fs0)).lookup (legacy_file oldDoc.catalogVersion) = none ∧
    (fsRun fs0 (save_cached_writes newDoc fs0)).lookup (legacy_file newDoc.catalogVersion) = some oldDoc ∧
    oldDoc.catalogVersion ≠ newDoc.catalogVersion := by
  refine ⟨rfl, rfl, by decide⟩

/-- C1 (amended): before the canonical cache file is overwritten, its
previous content is copied verbatim into the archive directory — but under
the file name derived from the *incoming* document's catalog version (the
version that replaces it), not from the archived snapshot's own version;
after the run the archive entry named from the new version holds exactly
the pre-run cache document and the canonical path holds the new document. -/
theorem archive_keyed_by_new_version
    (fs : List (String × ArchDoc)) (old cisa : ArchDoc)
    (h : fs.lookup CACHE_FILE = some old) :
    save_cached_writes cisa fs =
      [.write (legacy_file cisa.catalogVersion) old, .write CACHE_FILE cisa] ∧
    (fsRun fs (save_cached_writes cisa fs)).lookup (legacy_file cisa.catalogVersion) = some old ∧
    (fsRun fs (save_cached_writes cisa fs)).lookup CACHE_FILE = some cisa := by
  have hw : save_cached_writes cisa fs =
      [.write (legacy_file cisa.catalogVersion) old, .write CACHE_FILE cisa] := by
    simp [save_cached_writes, h]
  refine ⟨hw, ?_, ?_⟩
  · rw [hw]
    show (fsApply (fsApply fs (.write (legacy_file cisa.catalogVersion) old))
      (.write CACHE_FILE cisa)).lookup (legacy_file cisa.catalogVersion) = some old
    have hne : legacy_file cisa.catalogVersion ≠ CACHE_FILE :=
      legacy_file_ne_cache cisa.catalogVersion
    have hbe : (legacy_file cisa.catalogVersion == CACHE_FILE) = false := by
      simp [hne]
    simp only [fsApply, List.lookup, hbe]
    rw [lookup_filter_ne _ hne]
    simp [List.lookup]
  · rw [hw]
    show (fsApply (fsApply fs (.write (legacy_file cisa.catalogVersion) old))
      (.write CACHE_FILE cisa)).lookup CACHE_FILE = some cisa
    simp [fsApply, List.lookup]

/-- Witness for `archive_keyed_by_new_version` at the concrete file system
`fs0`. -/
theorem archive_keyed_by_new_version_witness :
    fs0.lookup CACHE_FILE = some oldDoc ∧
    (save_cached_writes newDoc fs0 =
      [.write (legacy_file newDoc.catalogVersion) oldDoc, .write CACHE_FILE newDoc] ∧
    (fsRun fs0 (save_cached_writes newDoc fs0)).lookup (legacy_file newDoc.catalogVersion) = some oldDoc ∧
    (fsRun fs0 (save_cached_writes newDoc fs0)).lookup CACHE_FILE = some newDoc) :=
  ⟨rfl, archive_keyed_by_new_version fs0 oldDoc newDoc rfl⟩

/-- C2: the temporary file is created in the interpreter's default
temporary directory, not in the cache file's directory, and when that
directory sits on a different file system `shutil.move` degrades to a
non-atomic copy: at the interruption point right after the copy truncates
the destination, the canonical cache path holds an empty file — neither
the complete old content nor absent.  This exhibits the failing input for
the crash-safety claim; the code's own comment ("rename to avoid partial
writes") states the safety the claim describes. -/
theorem save_partial_write_at_failing_input :
    tempfile_dir ≠ dirname CACHE_FILE ∧
    some "" ∈ save_crash_states false (some "OLD") "NEW" ∧
    some "" ≠ some "OLD" ∧ (some "" : Option String) ≠ none := by
  refine ⟨by decide, by simp [save_crash_states], by decide, by decide⟩

/-- C7 (counterexample): a persisted cache file holding the valid JSON
document `{}` cannot be reconstructed into a snapshot, yet `load` neither
quarantines it nor reports "no cache": the missing `processed_data` key
raises `KeyError`, which only `json.JSONDecodeError` handling does not
catch, and no rename is performed. -/
theorem load_malformed_raises_cex :
    load_cached_data (some (.jv (.jobj []))) = (.error .keyError, []) := rfl

/-- C7 (amended): only a cache file whose bytes fail JSON parsing is
quarantined — renamed to the `.bak`-suffixed path — and treated as "no
cache"; an absent file is "no cache" with no effect, while an unreadable
file propagates its error (and parseable files of the wrong shape raise,
per the counterexample). -/
theorem load_quarantine_only_json_errors :
    load_cached_data (some .invalid) =
      (.ok none, [.rename CACHE_FILE (CACHE_FILE ++ ".bak")]) ∧
    load_cached_data none = (.ok none, []) ∧
    load_cached_data (some .unreadable) = (.error .osError, []) :=
  ⟨rfl, rfl, rfl⟩

/-- C9 (counterexample): a severity response whose first present schema
carries a JSON `null` base score makes the code return early: the caller
receives `None` — no usable score — yet the rate-limit pause is skipped
(sleep duration 0, not `NVD_SLEEPTIME`).  So the pause does not occur
after every call that failed to return a usable score. -/
theorem sleep_skipped_on_null_score_cex :
    usableScore (fetch_cvss_base_score cvssNullResp).1 = false ∧
    (fetch_cvss_base_score cvssNullResp).2 = 0 ∧
    NVD_SLEEPTIME ≠ 0 :=
  ⟨rfl, rfl, by decide⟩

/-- C9 (amended): the severity client pauses exactly `NVD_SLEEPTIME = 6`
on precisely the calls that complete through the final `return None` —
non-success status, unusable body shape, no recognized schema, or a caught
`KeyError`/`ValueError`; a call that returns early from the schema chain
(whatever value it found, even JSON `null`) does not pause, and neither
does a call that raises an uncaught exception. -/
theorem sleep_exactly_on_fallthrough (resp : HttpResp) :
    (fetch_cvss_base_score resp).2 =
      if exIsOkNone (fetch_cvss_base_score resp).1 then NVD_SLEEPTIME else 0 := by
  have hTry : ∀ x : Except PyErr (Option JVal),
      (afterTry x).2 = if exIsOkNone (afterTry x).1 then NVD_SLEEPTIME else 0 := by
    intro x
    cases x with
    | error e => rfl
    | ok o => cases o <;> rfl
  have hOuter : ∀ (data : JVal) (x : Except PyErr Bool),
      (afterOuter data x).2 =
        if exIsOkNone (afterOuter data x).1 then NVD_SLEEPTIME else 0 := by
    intro data x
    cases x with
    | error e => rfl
    | ok b =>
      cases b with
      | false => rfl
      | true => exact hTry (tryExtract data)
  by_cases h : resp.status_code = 200
  · have hpick : fetch_cvss_base_score resp =
        match respJson resp with
        | .error e => (.error e, 0)
        | .ok data => afterOuter data (outerCond data) := by
      simp [fetch_cvss_base_score, h]
    rw [hpick]
    cases hj : respJson resp with
    | error e => rfl
    | ok data => exact hOuter data (outerCond data)
  · simp [fetch_cvss_base_score, h, exIsOkNone]

/-- C8 (counterexample): a 200 severity response whose body is not valid
JSON raises (`response.json()` is outside the `try`), it does not return
absent — refuting "returns absent … on any error". -/
theorem cvss_error_raises_cex :
    (fetch_cvss_base_score ⟨200, none⟩).1 = .error .jsonDecodeError ∧
    (fetch_cvss_base_score ⟨200, none⟩).1 ≠ .ok none := by
  refine ⟨rfl, ?_⟩
  intro h
  rw [show (fetch_cvss_base_score ⟨200, none⟩).1 = .error .jsonDecodeError from rfl] at h
  simp at h

/-- C3 (counterexample): a 200 likelihood response of unrecognized shape
(body `{}`) raises `KeyError` out of `fetch_epss_score`, aborting the
whole enrichment batch — the second delta record is never processed even
though its own fetches would have succeeded. -/
theorem enrichment_failure_aborts_cex :
    enrich_new_cves (fun c => fetch_epss_score (epssRespCex c))
      (fun c => (fetch_cvss_base_score (cvssRespNoSchema c)).1)
      ["CVE-2024-0001", "CVE-2024-0002"] = .error .keyError ∧
    exIsOk (fetch_epss_score (epssRespCex "CVE-2024-0002")) = true :=
  ⟨rfl, rfl⟩

/-- A column application over identifiers whose individual fetches all
completed returns exactly the per-identifier outcomes, in order. -/
theorem applyColumn_ok (f : String → Except PyErr (Option JVal)) :
    ∀ l : List String, (∀ c ∈ l, exIsOk (f c) = true) →
      applyColumn f l = .ok (l.map fun c => exVal (f c)) := by
  intro l
  induction l with
  | nil => intro _; rfl
  | cons c cs ih =>
    intro h
    have hc : exIsOk (f c) = true := h c (by simp)
    have hcs := ih (fun x hx => h x (by simp [hx]))
    cases hfc : f c with
    | error e => rw [hfc] at hc; simp [exIsOk] at hc
    | ok v => simp [applyColumn, hfc, hcs, exVal]

/-- The frame of converted feed records is the converted delta. -/
theorem newCves_eq (feed : Feed) (cached_data : Option (List Row)) :
    newCves feed cached_data = (deltaOf feed cached_data).map toDatetimeFeedRec := by
  rw [newCves, dfOf, filter_of_map]
  rfl

/-- Identifiers of the delta are unchanged by the date conversion. -/
theorem map_cveID_newCves (feed : Feed) (cached_data : Option (List Row)) :
    (newCves feed cached_data).map FeedRec.cveID =
      (deltaOf feed cached_data).map FeedRec.cveID := by
  rw [newCves_eq, List.map_map]
  rfl

/-- Membership gives `contains` for string lists. -/
theorem contains_of_mem {a : String} {l : List String} (h : a ∈ l) :
    l.contains a = true := by
  induction l with
  | nil => cases h
  | cons b t ih =>
    cases h with
    | head => simp [List.contains_cons]
    | tail _ h2 =>
      simp only [List.contains_cons, Bool.or_eq_true, beq_iff_eq]
      exact Or.inr (ih h2)
/-- C3 (amended): failures the code anticipates never abort the batch —
when every per-record fetch completes (as it does on non-success HTTP
status, which both clients turn into `None` without raising), the whole
delta is processed in order and each absent score is stored as zero.  What
the claim adds beyond this — that *any* failure, including a 200
likelihood response of unrecognized shape, is tolerated — is refuted by
the counterexample: such a response raises and aborts the run. -/
theorem enrichment_handled_failures_zero :
    (∀ (fE fC : String → Except PyErr (Option JVal)) (cves : List String),
      (∀ c ∈ cves, exIsOk (fE c) = true ∧ exIsOk (fC c) = true) →
      enrich_new_cves fE fC cves =
        .ok ((fillna0 (cves.map fun c => exVal (fE c))).zip
          (fillna0 (cves.map fun c => exVal (fC c))))) ∧
    (∀ r : HttpResp, r.status_code ≠ 200 → fetch_epss_score r = .ok none) ∧
    (∀ r : HttpResp, r.status_code ≠ 200 → (fetch_cvss_base_score r).1 = .ok none) := by
  refine ⟨?_, ?_, ?_⟩
  · intro fE fC cves h
    have hE := applyColumn_ok fE cves (fun c hc => (h c hc).1)
    have hC := applyColumn_ok fC cves (fun c hc => (h c hc).2)
    simp [enrich_new_cves, hE, hC]
  · intro r h
    simp [fetch_epss_score, h]
  · intro r h
    simp [fetch_cvss_base_score, h]

/-- Witness for `enrichment_handled_failures_zero`: the batch of two
identifiers whose severity responses carry no recognized score schema
completes, stores severity zero for both, and processes both records. -/
theorem enrichment_handled_failures_zero_witness :
    (∀ c ∈ ["CVE-2024-0001", "CVE-2024-0002"],
      exIsOk (fE0 c) = true ∧ exIsOk (fC0 c) = true) ∧
    enrich_new_cves fE0 fC0 ["CVE-2024-0001", "CVE-2024-0002"] =
      .ok ((fillna0 (["CVE-2024-0001", "CVE-2024-0002"].map fun c => exVal (fE0 c))).zip
        (fillna0 (["CVE-2024-0001", "CVE-2024-0002"].map fun c => exVal (fC0 c)))) ∧
    enrich_new_cves fE0 fC0 ["CVE-2024-0001", "CVE-2024-0002"] =
      .ok [(.jnum (97/100), .jnum 0), (.jnum (97/100), .jnum 0)] :=
  ⟨fun _ _ => ⟨rfl, rfl⟩,
   enrichment_handled_failures_zero.1 fE0 fC0 _ (fun _ _ => ⟨rfl, rfl⟩),
   rfl⟩

/-- C5: on the update path the delta is exactly the feed records whose
identifier is not present in the cached snapshot (the whole feed when
there is no cache), each of the two fetches is invoked once per delta
record, in feed order, and never for an identifier already present in the
cache — so a record merged earlier is not re-enriched even if its other
fields changed upstream. -/
theorem delta_and_fetch_once (fE fC : String → Option ℚ) (feed : Feed)
    (cached_data : Option (List Row)) (res : List Row × List String × List String)
    (hres : process_cisa_data fE fC feed cached_data = some res) :
    res.2.1 = (deltaOf feed cached_data).map FeedRec.cveID ∧
    res.2.2 = (deltaOf feed cached_data).map FeedRec.cveID ∧
    ∀ r ∈ cached_data.getD [], r.cveID ∉ res.2.1 := by
  by_cases h1 : feed.vulnerabilities = []
  · simp [process_cisa_data, h1] at hres
  · by_cases h2 : (newCves feed cached_data).isEmpty
    · have hnil : newCves feed cached_data = [] := by
        simpa using h2
      simp [process_cisa_data, h1, h2] at hres
      have hd : (deltaOf feed cached_data).map FeedRec.cveID = [] := by
        rw [← map_cveID_newCves, hnil]
        rfl
      rw [← hres]
      exact ⟨hd.symm, hd.symm, by simp⟩
    · simp [process_cisa_data, h1, h2] at hres
      rw [← hres]
      refine ⟨map_cveID_newCves feed cached_data, map_cveID_newCves feed cached_data, ?_⟩
      intro r hr hmem
      obtain ⟨v, hv, hveq⟩ := List.mem_map.mp hmem
      have hfil := List.of_mem_filter hv
      have hcm : (cachedCves cached_data).contains r.cveID = true :=
        contains_of_mem (List.mem_map_of_mem Row.cveID hr)
      rw [hveq] at hfil
      rw [hcm] at hfil
      simp at hfil

/-- Witness for `delta_and_fetch_once`: against the cache persisted by the
"2024.01.01" run, the "2024.01.02" feed — which changed the cached record
and added one — yields a delta of exactly the one new identifier; both
fetch logs are that singleton and the cached identifier is absent. -/
theorem delta_and_fetch_once_witness :
    process_cisa_data oracleE oracleC feed2 (some (loadRows D1)) = some RES2 ∧
    RES2.2.1 = ["CVE-2024-0002"] ∧
    (RES2.2.1 = (deltaOf feed2 (some (loadRows D1))).map FeedRec.cveID ∧
     RES2.2.2 = (deltaOf feed2 (some (loadRows D1))).map FeedRec.cveID ∧
     ∀ r ∈ (some (loadRows D1) : Option (List Row)).getD [], r.cveID ∉ RES2.2.1) :=
  ⟨rfl, rfl, delta_and_fetch_once oracleE oracleC feed2 (some (loadRows D1)) RES2 rfl⟩

/-- C6: the merge is append-only and order-preserving — the combined
snapshot is the prior cached rows, all fields untouched and in their
original order, followed by the enriched delta records in feed order;
this holds whatever the upstream feed now says about the cached records. -/
theorem merge_append_only (fE fC : String → Option ℚ) (feed : Feed)
    (cached_data : Option (List Row)) (res : List Row × List String × List String)
    (hres : process_cisa_data fE fC feed cached_data = some res) :
    res.1 = (cached_data.getD []) ++
      (deltaOf feed cached_data).map (fun v => enrichRow fE fC (toDatetimeFeedRec v)) := by
  by_cases h1 : feed.vulnerabilities = []
  · simp [process_cisa_data, h1] at hres
  · by_cases h2 : (newCves feed cached_data).isEmpty
    · have hnil : newCves feed cached_data = [] := by
        simpa using h2
      rw [newCves_eq] at hnil
      have hd : deltaOf feed cached_data = [] := by
        exact List.map_eq_nil_iff.mp hnil
      simp [process_cisa_data, h1, h2] at hres
      rw [← hres, hd]
      simp
    · simp [process_cisa_data, h1, h2] at hres
      rw [← hres, newCves_eq, List.map_map]
      rfl

/-- Witness for `merge_append_only`: the "2024.01.02" run leaves both
fields and order of the cached rows intact (even though the feed's copy of
the cached record changed) and appends the one enriched delta record. -/
theorem merge_append_only_witness :
    process_cisa_data oracleE oracleC feed2 (some (loadRows D1)) = some RES2 ∧
    RES2.1 = loadRows D1 ++
      (deltaOf feed2 (some (loadRows D1))).map
        (fun v => enrichRow oracleE oracleC (toDatetimeFeedRec v)) :=
  ⟨rfl, merge_append_only oracleE oracleC feed2 (some (loadRows D1)) RES2 rfl⟩

/-- Converting a date value to a Timestamp always yields a Timestamp. -/
theorem isDt_pd_to_datetime (d : DVal) : (pd_to_datetime d).isDt = true := by
  cases d <;> rfl

/-- The serialisation lambda always yields an ISO string. -/
theorem isStr_isoIfTimestamp (d : DVal) : (isoIfTimestamp d).isStr = true := by
  cases d <;> rfl

/-- The date re-parse of a row is idempotent. -/
theorem toDatetimeRow_toDatetimeRow (r : Row) :
    toDatetimeRow (toDatetimeRow r) = toDatetimeRow r := by
  rcases r with ⟨⟨id, vp, pr, vn, da, sd, ra, dd, kr, nt, cw⟩, e, c⟩
  cases da <;> cases dd <;> rfl

/-- The date re-parse of a frame is idempotent. -/
theorem map_toDatetimeRow_idem (l : List Row) :
    (l.map toDatetimeRow).map toDatetimeRow = l.map toDatetimeRow := by
  induction l with
  | nil => rfl
  | cons a t ih => simp [toDatetimeRow_toDatetimeRow, ih]

/-- Every row of a loaded cache document holds Timestamp dates. -/
theorem loadRows_isDt (doc : CacheDoc) :
    ∀ r ∈ loadRows doc, r.vuln.dateAdded.isDt = true ∧ r.vuln.dueDate.isDt = true := by
  intro r hr
  obtain ⟨r0, _, hreq⟩ := List.mem_map.mp hr
  subst hreq
  exact ⟨isDt_pd_to_datetime _, isDt_pd_to_datetime _⟩

/-- Every row the update path assembles holds Timestamp dates, provided
the cached rows it started from do. -/
theorem process_rows_isDt (fE fC : String → Option ℚ) (feed : Feed)
    (cached_data : Option (List Row)) (res : List Row × List String × List String)
    (hcd : ∀ r ∈ cached_data.getD [],
      r.vuln.dateAdded.isDt = true ∧ r.vuln.dueDate.isDt = true)
    (hres : process_cisa_data fE fC feed cached_data = some res) :
    ∀ r ∈ res.1, r.vuln.dateAdded.isDt = true ∧ r.vuln.dueDate.isDt = true := by
  by_cases h1 : feed.vulnerabilities = []
  · simp [process_cisa_data, h1] at hres
  · by_cases h2 : (newCves feed cached_data).isEmpty
    · simp [process_cisa_data, h1, h2] at hres
      rw [← hres]
      exact hcd
    · simp [process_cisa_data, h1, h2] at hres
      rw [← hres]
      intro r hr
      rcases List.mem_append.mp hr with hl | hr2
      · exact hcd r hl
      · obtain ⟨v, hv, hveq⟩ := List.mem_map.mp hr2
        subst hveq
        rw [newCves_eq] at hv
        obtain ⟨w, _, hweq⟩ := List.mem_map.mp hv
        subst hweq
        exact ⟨isDt_pd_to_datetime _, isDt_pd_to_datetime _⟩

/-- On a frame whose dates are all Timestamps, the save-time in-place
conversion turns every date of every row into an ISO string. -/
theorem save_mutate_isStr (rows : List Row)
    (h : ∀ r ∈ rows, r.vuln.dateAdded.isDt = true ∧ r.vuln.dueDate.isDt = true) :
    ∀ r ∈ save_mutate rows,
      r.vuln.dateAdded.isStr = true ∧ r.vuln.dueDate.isStr = true := by
  have h1 : rows.all (fun r => r.vuln.dateAdded.isDt) = true :=
    List.all_eq_true.mpr (fun r hr => (h r hr).1)
  have hda : save_mutate_dateAdded rows =
      rows.map (fun r => { r with vuln := { r.vuln with dateAdded := isoIfTimestamp r.vuln.dateAdded } }) := by
    rw [save_mutate_dateAdded, if_pos h1]
  have h2 : (save_mutate_dateAdded rows).all (fun r => r.vuln.dueDate.isDt) = true := by
    rw [hda, List.all_map]
    exact List.all_eq_true.mpr (fun r hr => (h r hr).2)
  rw [save_mutate, if_pos h2, hda, List.map_map]
  intro r hr
  obtain ⟨r0, hr0, hreq⟩ := List.mem_map.mp hr
  subst hreq
  exact ⟨isStr_isoIfTimestamp _, isStr_isoIfTimestamp _⟩

/-- C4 (counterexample): with feed revision "2024.01.01" and no prior
cache, the first run takes the update path; an immediately following run
with the unchanged feed takes the no-op path, makes no enrichment calls
and leaves the cache untouched — but the snapshot it returns is *not*
identical to the first run's: the first run returned ISO-string dates
(the save-time mutation), the second returns Timestamps. -/
theorem noop_not_identical_cex :
    get_latest_data oracleE oracleC feed1 none = some R1 ∧
    get_latest_data oracleE oracleC feed1 R1.cacheAfter = some R2 ∧
    R2.epssCalls = [] ∧ R2.cvssCalls = [] ∧ R2.cacheAfter = R1.cacheAfter ∧
    R2.returned ≠ R1.returned := by
  refine ⟨rfl, rfl, rfl, rfl, rfl, by decide⟩

/-- C4 (amended): a run over a cache whose catalog version equals the
fresh feed's version is a no-op — no enrichment calls, cache file
untouched — and returns the previous run's snapshot up to date
representation: it equals the previous run's returned snapshot with its
date columns re-parsed from ISO strings to Timestamps. -/
theorem noop_second_run (fE fC : String → Option ℚ) (feed : Feed)
    (cache : Option CacheDoc) (r1 : RunResult)
    (h : get_latest_data fE fC feed cache = some r1) :
    get_latest_data fE fC feed r1.cacheAfter =
      some ⟨r1.returned.map toDatetimeRow, r1.cacheAfter, [], []⟩ := by
  by_cases hs : staleCache feed cache = true
  · rw [get_latest_data, if_pos hs] at h
    cases hp : process_cisa_data fE fC feed (cache.map loadRows) with
    | none => rw [hp] at h; exact absurd h (by simp)
    | some res =>
      obtain ⟨processed, le, lc⟩ := res
      rw [hp] at h
      have hr1 := Option.some.inj h
      subst hr1
      have hstale : staleCache feed
          (some ⟨feed.catalogVersion, feed.vulnerabilities, save_mutate processed⟩) = false := by
        simp [staleCache]
      rw [get_latest_data, if_neg (by simp [hstale])]
      exact congrArg
        (fun l => some (RunResult.mk l
          (some ⟨feed.catalogVersion, feed.vulnerabilities, save_mutate processed⟩) [] []))
        (map_toDatetimeRow_idem (save_mutate processed))
  · cases cache with
    | none => exact absurd rfl hs
    | some doc =>
      rw [get_latest_data, if_neg hs] at h
      have hr1 := Option.some.inj h
      subst hr1
      rw [get_latest_data, if_neg (by simpa using hs)]
      exact congrArg (fun l => some (RunResult.mk l (some doc) [] []))
        (map_toDatetimeRow_idem (loadRows doc)).symm

/-- Witness for `noop_second_run` at the concrete first run `R1`. -/
theorem noop_second_run_witness :
    get_latest_data oracleE oracleC feed1 none = some R1 ∧
    get_latest_data oracleE oracleC feed1 R1.cacheAfter =
      some ⟨R1.returned.map toDatetimeRow, R1.cacheAfter, [], []⟩ :=
  ⟨rfl, noop_second_run oracleE oracleC feed1 none R1 rfl⟩

/-- C10: `save_cached_data` rewrites the snapshot it is given in place
(ISO strings for both datetime columns), and `get_latest_data` returns
that same object — so on the update path every returned row carries
ISO-string dates while on the no-op path every returned row carries
Timestamp dates: the representation of the date fields depends on the
path taken. -/
theorem returned_date_repr_by_path (fE fC : String → Option ℚ) (feed : Feed)
    (cache : Option CacheDoc) (r : RunResult)
    (h : get_latest_data fE fC feed cache = some r) :
    ∀ row ∈ r.returned,
      (if staleCache feed cache then
        row.vuln.dateAdded.isStr && row.vuln.dueDate.isStr
      else
        row.vuln.dateAdded.isDt && row.vuln.dueDate.isDt) = true := by
  by_cases hs : staleCache feed cache = true
  · rw [get_latest_data, if_pos hs] at h
    cases hp : process_cisa_data fE fC feed (cache.map loadRows) with
    | none => rw [hp] at h; exact absurd h (by simp)
    | some res =>
      obtain ⟨processed, le, lc⟩ := res
      rw [hp] at h
      have hr1 := Option.some.inj h
      subst hr1
      have hcd : ∀ r ∈ (cache.map loadRows).getD [],
          r.vuln.dateAdded.isDt = true ∧ r.vuln.dueDate.isDt = true := by
        cases cache with
        | none => intro r hr; cases hr
        | some doc => exact loadRows_isDt doc
      have hdt := process_rows_isDt fE fC feed (cache.map loadRows)
        (processed, le, lc) hcd hp
      intro row hrow
      have hstr := save_mutate_isStr processed hdt row hrow
      simp [hs, hstr.1, hstr.2]
  · have hs2 : staleCache feed cache = false := by
      simpa using hs
    rw [get_latest_data, if_neg hs] at h
    have hr1 := Option.some.inj h
    subst hr1
    intro row hrow
    obtain ⟨r0, _, hreq⟩ := List.mem_map.mp hrow
    subst hreq
    simp [hs2, toDatetimeRow, toDatetimeFeedRec, isDt_pd_to_datetime]

/-- Witness for `returned_date_repr_by_path`: both the concrete update
run (ISO strings) and the concrete no-op run (Timestamps). -/
theorem returned_date_repr_by_path_witness :
    get_latest_data oracleE oracleC feed1 none = some R1 ∧
    (∀ row ∈ R1.returned,
      (if staleCache feed1 none then
        row.vuln.dateAdded.isStr && row.vuln.dueDate.isStr
      else
        row.vuln.dateAdded.isDt && row.vuln.dueDate.isDt) = true) ∧
    get_latest_data oracleE oracleC feed1 R1.cacheAfter = some R2 ∧
    (∀ row ∈ R2.returned,
      (if staleCache feed1 R1.cacheAfter then
        row.vuln.dateAdded.isStr && row.vuln.dueDate.isStr
      else
        row.vuln.dateAdded.isDt && row.vuln.dueDate.isDt) = true) ∧
    staleCache feed1 none = true ∧ staleCache feed1 R1.cacheAfter = false :=
  ⟨rfl, returned_date_repr_by_path oracleE oracleC feed1 none R1 rfl,
   rfl, returned_date_repr_by_path oracleE oracleC feed1 R1.cacheAfter R2 rfl,
   rfl, rfl⟩

/-- A successful association lookup means the key is among the dict's keys. -/
theorem lookup_keys_contains {l : List (String × JVal)} {k : String} {v : JVal}
    (h : l.lookup k = some v) : (l.map Prod.fst).contains k = true := by
  induction l with
  | nil => simp [List.lookup] at h
  | cons a t ih =>
    obtain ⟨k1, v1⟩ := a
    by_cases hk : k = k1
    · subst hk
      simp [List.contains_cons]
    · have hbe : (k == k1) = false := beq_eq_false_iff_ne.mpr hk
      simp only [List.lookup, hbe] at h
      simp only [List.map_cons, List.contains_cons, Bool.or_eq_true]
      exact Or.inr (ih h)

/-- A failed association lookup means the key is absent from the keys. -/
theorem lookup_none_not_contains {l : List (String × JVal)} {k : String}
    (h : l.lookup k = none) : (l.map Prod.fst).contains k = false := by
  induction l with
  | nil => rfl
  | cons a t ih =>
    obtain ⟨k1, v1⟩ := a
    by_cases hk : k = k1
    · have hbe : (k == k1) = true := beq_iff_eq.mpr hk
      simp only [List.lookup, hbe] at h
      exact (Option.some_ne_none v1 h).elim
    · have hbe : (k == k1) = false := beq_eq_false_iff_ne.mpr hk
      simp only [List.lookup, hbe] at h
      simp only [List.map_cons, List.contains_cons, hbe, Bool.false_or]
      exact ih h

/-- On a metrics dict whose schema entries are lists (as the severity
service serves them), the code's guard for one schema key equals the
spec-side presence test. -/
theorem condFor_spec (m : List (String × JVal)) (k : String)
    (harr : ∀ v, m.lookup k = some v → ∃ xs, v = .jarr xs) :
    condFor (.jobj m) k = .ok (schemaPresent m k) := by
  cases hl : m.lookup k with
  | none =>
    have hpc : (JVal.jobj m).pyContains k = .ok false := by
      rw [show (JVal.jobj m).pyContains k =
        .ok ((m.map Prod.fst).contains k) from rfl, lookup_none_not_contains hl]
    simp [condFor, hpc, schemaPresent, hl]
  | some v =>
    obtain ⟨xs, rfl⟩ := harr v hl
    have hpc : (JVal.jobj m).pyContains k = .ok true := by
      rw [show (JVal.jobj m).pyContains k =
        .ok ((m.map Prod.fst).contains k) from rfl, lookup_keys_contains hl]
    have hsub : (JVal.jobj m).subscript k = .ok (.jarr xs) := by
      simp [JVal.subscript, hl]
    cases xs with
    | nil => simp [condFor, hpc, hsub, JVal.pyLen, schemaPresent, hl]
    | cons a t => simp [condFor, hpc, hsub, JVal.pyLen, schemaPresent, hl]

/-- On such a metrics dict, the `if`/`elif` chain runs the extraction of
exactly the first schema of the preference order that is present with a
non-empty entry, and returns `None` when no schema is. -/
theorem schemaChain_spec (m : List (String × JVal))
    (harr : ∀ k ∈ preferredSchemas, ∀ v, m.lookup k = some v → ∃ xs, v = .jarr xs) :
    schemaChain (.jobj m) =
      match specFirstSchema m with
      | none => .ok none
      | some k => extractFrom (.jobj m) k := by
  have h31 := condFor_spec m "cvssMetricV31" (harr _ (by simp [preferredSchemas]))
  have h30 := condFor_spec m "cvssMetricV30" (harr _ (by simp [preferredSchemas]))
  have h2 := condFor_spec m "cvssMetricV2" (harr _ (by simp [preferredSchemas]))
  rw [schemaChain, h31]
  cases hp31 : schemaPresent m "cvssMetricV31" with
  | true => simp [specFirstSchema, preferredSchemas, List.find?, hp31]
  | false =>
    rw [h30]
    cases hp30 : schemaPresent m "cvssMetricV30" with
    | true => simp [specFirstSchema, preferredSchemas, List.find?, hp31, hp30]
    | false =>
      rw [h2]
      cases hp2 : schemaPresent m "cvssMetricV2" with
      | true => simp [specFirstSchema, preferredSchemas, List.find?, hp31, hp30, hp2]
      | false => simp [specFirstSchema, preferredSchemas, List.find?, hp31, hp30, hp2]

/-- C8 (amended): on a well-shaped severity response carrying a metrics
dict whose schema entries are lists, the client tries the schemas in the
fixed order newest first — `cvssMetricV31`, `cvssMetricV30`,
`cvssMetricV2` — and returns the base score found under the first schema
present with a non-empty entry; it returns absent when none is present.
(The claim's further "absent on any error" is refuted by the
counterexample: a 200 response whose body is not valid JSON raises.) -/
theorem cvss_preference_order
    (d v0f c0 m : List (String × JVal)) (vrest : List JVal)
    (hv : d.lookup "vulnerabilities" = some (.jarr (.jobj v0f :: vrest)))
    (hc : v0f.lookup "cve" = some (.jobj c0))
    (hm : c0.lookup "metrics" = some (.jobj m))
    (harr : ∀ k ∈ preferredSchemas, ∀ v, m.lookup k = some v → ∃ xs, v = .jarr xs) :
    (specFirstSchema m = none →
      (fetch_cvss_base_score ⟨200, some (.jobj d)⟩).1 = .ok none) ∧
    (∀ (k : String) (ef cd : List (String × JVal)) (es : List JVal) (bs : JVal),
      specFirstSchema m = some k →
      m.lookup k = some (.jarr (.jobj ef :: es)) →
      ef.lookup "cvssData" = some (.jobj cd) →
      cd.lookup "baseScore" = some bs →
      (fetch_cvss_base_score ⟨200, some (.jobj d)⟩).1 = .ok (some bs)) := by
  have houter : outerCond (.jobj d) = .ok true := by
    have hpc : (JVal.jobj d).pyContains "vulnerabilities" = .ok true := by
      rw [show (JVal.jobj d).pyContains "vulnerabilities" =
        .ok ((d.map Prod.fst).contains "vulnerabilities") from rfl,
        lookup_keys_contains hv]
    have hsub : (JVal.jobj d).subscript "vulnerabilities" =
        .ok (.jarr (.jobj v0f :: vrest)) := by
      simp [JVal.subscript, hv]
    simp [outerCond, hpc, hsub, JVal.pyLen]
  have hraw : rawExtract (.jobj d) = schemaChain (.jobj m) := by
    simp [rawExtract, JVal.subscript, hv, JVal.index, hc, hm]
  have hchain := schemaChain_spec m harr
  have hfetch : (fetch_cvss_base_score ⟨200, some (.jobj d)⟩).1 =
      (afterTry (tryExtract (.jobj d))).1 := by
    simp [fetch_cvss_base_score, respJson, houter, afterOuter]
  constructor
  · intro hnone
    have htry : tryExtract (.jobj d) = .ok none := by
      rw [tryExtract, hraw, hchain, hnone]
      rfl
    rw [hfetch, htry]
    rfl
  · intro k ef cd es bs hk hke hcd hbs
    have hex : extractFrom (.jobj m) k = .ok (some bs) := by
      simp [extractFrom, JVal.subscript, hke, JVal.index, hcd, hbs]
    have htry : tryExtract (.jobj d) = .ok (some bs) := by
      rw [tryExtract, hraw, hchain, hk]
      show recoverKV (extractFrom (.jobj m) k) = .ok (some bs)
      rw [hex]
      rfl
    rw [hfetch, htry]
    rfl

/-- Witness for `cvss_preference_order`: a response whose newest schema is
present but empty falls back to `cvssMetricV30` and returns its base
score 5.4. -/
theorem cvss_preference_order_witness :
    specFirstSchema fallbackMetrics = some "cvssMetricV30" ∧
    (fetch_cvss_base_score ⟨200, some (cvssBodyOf fallbackMetrics)⟩).1 =
      .ok (some (.jnum (54/10))) := by
  have harr : ∀ k ∈ preferredSchemas, ∀ v,
      fallbackMetrics.lookup k = some v → ∃ xs, v = .jarr xs := by
    intro k hk v hv
    simp only [preferredSchemas, List.mem_cons, List.not_mem_nil, or_false] at hk
    rcases hk with rfl | rfl | rfl
    · have hv2 : some (JVal.jarr []) = some v := hv
      exact ⟨[], (Option.some.inj hv2).symm⟩
    · have hv2 : some (JVal.jarr [.jobj [("cvssData", .jobj [("baseScore", .jnum (54/10))])]])
          = some v := hv
      exact ⟨_, (Option.some.inj hv2).symm⟩
    · have hv2 : some (JVal.jarr [.jobj [("cvssData", .jobj [("baseScore", .jnum (21/10))])]])
          = some v := hv
      exact ⟨_, (Option.some.inj hv2).symm⟩
  refine ⟨rfl, ?_⟩
  exact (cvss_preference_order
    [("vulnerabilities", .jarr [.jobj [("cve", .jobj [("metrics", .jobj fallbackMetrics)])]])]
    [("cve", .jobj [("metrics", .jobj fallbackMetrics)])]
    [("metrics", .jobj fallbackMetrics)]
    fallbackMetrics [] rfl rfl rfl harr).2
    "cvssMetricV30" [("cvssData", .jobj [("baseScore", .jnum (54/10))])]
    [("baseScore", .jnum (54/10))] [] (.jnum (54/10)) rfl rfl rfl rfl
